import Mathlib

/-!
Shallow embedding of the debounced dotfile watcher in
src/dotfile_watcher.py, and proofs about it.

Paths are modelled as lists of components of an already resolved absolute
path (Python `Path(...).resolve()` is assumed to have happened; symlinks and
`..` are outside the model).  Machine state mutated by the handler object is
an explicit `Handler` structure; the external git executor, the filesystem
and the desktop notifier are an `Env` of oracles.  Subprocess-level
failures of Python itself are not modelled; `try/except` blocks around pure
code are translated to the branch actually taken.
-/

/-- Python `needle in haystack` on the underlying character lists:
contiguous-substring test, the empty needle matches everything. -/
def listInfixB (needle : List Char) : List Char → Bool
  | [] => needle.isEmpty
  | c :: t => needle.isPrefixOf (c :: t) || listInfixB needle t

/-- Python `pat in hay` for strings (substring containment). -/
def strContains (hay pat : String) : Bool :=
  listInfixB pat.toList hay.toList

/-- Python `str.strip()`: drop whitespace from both ends. -/
def pyStrip (s : String) : String :=
  String.mk (((s.toList.dropWhile Char.isWhitespace).reverse.dropWhile
    Char.isWhitespace).reverse)

/-- Python `str.isdigit()` restricted to ASCII digits: true on a nonempty
all-digit string.  (Python additionally accepts some Unicode digit
characters; none of the inputs considered here contain any.) -/
def pyIsdigit (s : String) : Bool :=
  !s.isEmpty && s.toList.all Char.isDigit

/-- Python `str.startswith` (character-list based so that it evaluates
inside the kernel). -/
def strStartsWith (s pre : String) : Bool :=
  pre.toList.isPrefixOf s.toList

/-- Python `str.endswith` (character-list based so that it evaluates
inside the kernel). -/
def strEndsWith (s suf : String) : Bool :=
  List.isSuffixOf suf.toList s.toList

/-- Python `str.split(sep)` for a nonempty separator: split at every
occurrence, keeping empty pieces.  The fuel starts at the string length
and each step consumes at least one character. -/
def splitF (sep : List Char) : Nat → List Char → List (List Char)
  | _, [] => [[]]
  | 0, s => [s]
  | n + 1, c :: t =>
    if sep.isPrefixOf (c :: t) then
      [] :: splitF sep n ((c :: t).drop sep.length)
    else
      match splitF sep n t with
      | [] => [[c]]
      | piece :: rest => (c :: piece) :: rest

def pySplitOn (s sep : String) : List String :=
  (splitF sep.toList s.toList.length s.toList).map String.mk

/-- Python `str.replace(pat, rep)` for a nonempty pattern, replacing
every occurrence left to right. -/
def replF (pat rep : List Char) : Nat → List Char → List Char
  | _, [] => []
  | 0, s => s
  | n + 1, c :: t =>
    if pat.isPrefixOf (c :: t) then
      rep ++ replF pat rep n ((c :: t).drop pat.length)
    else c :: replF pat rep n t

def pyReplace (s pat rep : String) : String :=
  String.mk (replF pat.toList rep.toList s.toList.length s.toList)

/-- Value of a nonempty all-digit character run. -/
def digitsVal (cs : List Char) : Option Nat :=
  if cs.isEmpty then none
  else
    cs.foldl
      (fun acc c => acc.bind (fun n =>
        if c.isDigit then some (n * 10 + (c.toNat - 48)) else none))
      (some 0)

/-- Python `int(...)` on an already stripped numeric string, as used on
the output of `git rev-list --count`: an optional sign followed by
digits; `none` models the `ValueError`.  (Python additionally accepts
underscore digit separators and Unicode digits, which cannot occur in
`git rev-list --count` output.) -/
def pyInt (s : String) : Option Int :=
  match s.toList with
  | '-' :: rest => (digitsVal rest).map (fun n => -(n : Int))
  | '+' :: rest => (digitsVal rest).map (fun n => (n : Int))
  | rest => (digitsVal rest).map (fun n => (n : Int))

/-! ### fnmatch-style shell glob matching

`fnmatch.fnmatch` on POSIX: `*` matches any character run (including `/`),
`?` any single character, `[...]` a character class with ranges and a
leading `!` for negation; an unclosed `[` is a literal; a `]` directly
after `[` or `[!` is a literal class member; the match is anchored at both
ends.  The recursions are driven by a fuel argument that starts at the
input length, which every recursive call strictly decreases alongside, so
the fuel never runs out; this keeps the definitions structural so that
they evaluate inside the kernel. -/

inductive GTok where
  | star
  | anyc
  | lit (c : Char)
  | cls (neg : Bool) (spec : List Char)
deriving Repr, DecidableEq

/-- Scan for the closing `]` of a character class, returning the class
body seen so far and the remainder of the pattern. -/
def splitAtClose : List Char → Option (List Char × List Char)
  | [] => none
  | c :: t =>
    if c = ']' then some ([], t)
    else
      match splitAtClose t with
      | none => none
      | some (a, b) => some (c :: a, b)

/-- Parse a character class after the opening `[`: the first character of
the body is a literal member even when it is `]`. -/
def findCloseCore : List Char → Option (List Char × List Char)
  | [] => none
  | c :: t =>
    match splitAtClose t with
    | none => none
    | some (a, b) => some (c :: a, b)

/-- Parse a character class after the opening `[`, handling the optional
leading negation marker `!`. -/
def findClose (ps : List Char) : Option (Bool × List Char × List Char) :=
  match ps with
  | [] => none
  | c :: t =>
    if c = '!' then (findCloseCore t).map (fun ab => (true, ab.1, ab.2))
    else (findCloseCore (c :: t)).map (fun ab => (false, ab.1, ab.2))

/-- Compile a glob pattern to a token list (the analogue of
`fnmatch.translate`).  The fuel starts at the pattern length and every
step consumes at least one pattern character, so the `0` branch is only
reached on the empty pattern. -/
def compilePatF : Nat → List Char → List GTok
  | 0, _ => []
  | _ + 1, [] => []
  | n + 1, '*' :: t => GTok.star :: compilePatF n t
  | n + 1, '?' :: t => GTok.anyc :: compilePatF n t
  | n + 1, '[' :: t =>
    (match findClose t with
     | none => GTok.lit '[' :: compilePatF n t
     | some (neg, spec, rest) => GTok.cls neg spec :: compilePatF n rest)
  | n + 1, c :: t => GTok.lit c :: compilePatF n t

def compilePat (ps : List Char) : List GTok :=
  compilePatF ps.length ps

/-- Membership of a character in a class body, with `a-z` ranges and a
trailing or leading `-` taken literally (regex character-class
semantics, as produced by `fnmatch.translate`). -/
def classMemberB : List Char → Char → Bool
  | [], _ => false
  | a :: '-' :: b :: rest, c => (a ≤ c && c ≤ b) || classMemberB rest c
  | a :: rest, c => (a == c) || classMemberB rest c

def classMatch (neg : Bool) (spec : List Char) (c : Char) : Bool :=
  if neg then !(classMemberB spec c) else classMemberB spec c

/-- Token-level matcher, anchored at both ends.  Each recursive call
strictly decreases the combined length of the token list and the string,
so fuel `tokens + string + 1` is never exhausted. -/
def tmatchF : Nat → List GTok → List Char → Bool
  | 0, _, _ => false
  | _ + 1, [], [] => true
  | _ + 1, [], _ :: _ => false
  | n + 1, GTok.star :: ts, [] => tmatchF n ts []
  | n + 1, GTok.star :: ts, c :: s2 =>
    tmatchF n ts (c :: s2) || tmatchF n (GTok.star :: ts) s2
  | _ + 1, GTok.anyc :: _, [] => false
  | n + 1, GTok.anyc :: ts, _ :: s2 => tmatchF n ts s2
  | _ + 1, GTok.lit _ :: _, [] => false
  | n + 1, GTok.lit c :: ts, d :: s2 => (c == d) && tmatchF n ts s2
  | _ + 1, GTok.cls _ _ :: _, [] => false
  | n + 1, GTok.cls m sp :: ts, d :: s2 => classMatch m sp d && tmatchF n ts s2

def tmatch (ts : List GTok) (s : List Char) : Bool :=
  tmatchF (ts.length + s.length + 1) ts s

/-- `fnmatch.fnmatch(s, pat)` on POSIX (where `normcase` is the
identity). -/
def globMatch (pat s : String) : Bool :=
  tmatch (compilePat pat.toList) s.toList

example : globMatch "build" "build" = true := by decide
example : globMatch "build" "a/build" = false := by decide
example : globMatch "*.pyc" "x/y.pyc" = true := by decide
example : globMatch "?.txt" "ab.txt" = false := by decide
example : globMatch "[abc].txt" "b.txt" = true := by decide
example : globMatch "[!abc].txt" "d.txt" = true := by decide
example : strContains "/home/u/.git/index" "/.git/" = true := by decide
example : pyStrip "  main\ndev\n" = "main\ndev" := by decide

/-! ### Data model

`PathC` is a resolved absolute path as its list of components below the
filesystem root; `pathStr` renders it the way Python `str(Path(...))`
does for absolute paths, `relPathStr` the way it does for the relative
paths produced by `Path.relative_to`. -/

abbrev PathC := List String

def pathStr (p : PathC) : String :=
  "/" ++ String.intercalate "/" p

def pathName (p : PathC) : String :=
  (p.getLast?).getD ""

def relPathStr (p : PathC) : String :=
  if p.isEmpty then "." else String.intercalate "/" p

/-- Python `Path.relative_to`: `none` models the `ValueError` raised when
`base` is not an ancestor. -/
def relTo (p base : PathC) : Option PathC :=
  if base.isPrefixOf p then some (p.drop base.length) else none

/-- The rendered strings of `rel_path.parents` (all proper ancestors of a
relative path, the empty ancestor rendering as `"."`).  Python yields them
nearest-first; only `any`-style queries are made of this list, so the
order is immaterial and they are listed shortest-first here. -/
def parentStrs (xs : PathC) : List String :=
  (List.range xs.length).map (fun k => relPathStr (xs.take k))

example : parentStrs ["a", "build", "f.txt"] = [".", "a", "a/build"] := by decide
example : pathStr ["r", "sub"] = "/r/sub" := by decide
example : relTo ["r", "a", "b"] ["r"] = some ["a", "b"] := by decide
example : relTo ["q", "a"] ["r"] = none := by decide

/-- One recorded filesystem change, as stored by `schedule_commit`
(src/dotfile_watcher.py lines 336-340). -/
structure ChangeRec where
  file_path : PathC
  event_type : String
  file_name : String
deriving Repr, DecidableEq

/-- One pending batch, as stored in `self.pending_commits`
(src/dotfile_watcher.py lines 328-333). -/
structure PendingCommit where
  target_dir : PathC
  commit_type : String
  changes : List ChangeRec
deriving Repr, DecidableEq

/-- Result of one external command (`subprocess.run` with
`capture_output`), as consumed by `_run_git_command`. -/
structure GitResult where
  returncode : Int
  stdout : String
  stderr : String
deriving Repr, DecidableEq

/-- The external world: the command executor (keyed by argument list and
working directory), file existence, the `Path.is_dir` test made on
relative paths by `_matches_gitignore`, and the line-wise contents of a
file for the gitignore loader (`none` when the file does not exist or is
unreadable; both leave the cache untouched, see `_load_gitignore_for_repo`). -/
structure Env where
  run : List String → String → GitResult
  fileExists : PathC → Bool
  isDir : String → Bool
  fileLines : String → Option (List String)

/-- The mutable state of the `GitCommitHandler` object.  `executed` is an
observation log: one entry `(time, dir_key, changes)` is appended each
time `_execute_delayed_commit` reaches its dispatch (lines 365-373), i.e.
each time a commit sequence runs for a detached batch. -/
structure Handler where
  repo_dir : PathC
  submodules : List PathC
  excluded_patterns : List String
  gitignore_patterns : List (String × List String)
  pending_commits : List (String × PendingCommit)
  commit_timers : List (String × Nat)
  executed : List (Nat × String × List ChangeRec)
deriving Repr, DecidableEq

/-- A freshly constructed handler: no pending batches, no timers. -/
def mkHandler (repoDir : PathC) (subs : List PathC) (excl : List String)
    (gi : List (String × List String)) : Handler :=
  ⟨repoDir, subs, excl, gi, [], [], []⟩

/-! Association lists standing for Python dicts: at most one binding per
key is maintained by construction; `setA` keeps the position of an
existing key the way dict assignment does. -/

def lookupA {α : Type} : List (String × α) → String → Option α
  | [], _ => none
  | (k2, v) :: r, k => if k2 = k then some v else lookupA r k

def setA {α : Type} : List (String × α) → String → α → List (String × α)
  | [], k, v => [(k, v)]
  | (k2, w) :: r, k, v => if k2 = k then (k, v) :: r else (k2, w) :: setA r k v

def eraseA {α : Type} : List (String × α) → String → List (String × α)
  | [], _ => []
  | (k2, v) :: r, k => if k2 = k then eraseA r k else (k2, v) :: eraseA r k

theorem lookupA_setA_self {α : Type} (l : List (String × α)) (k : String) (v : α) :
    lookupA (setA l k v) k = some v := by
  induction l with
  | nil => simp [setA, lookupA]
  | cons kv r ih =>
    by_cases h : kv.1 = k
    · simp [setA, lookupA, h]
    · simp [setA, lookupA, h, ih]

theorem lookupA_setA_ne {α : Type} (l : List (String × α)) (k k2 : String) (v : α)
    (h : k ≠ k2) : lookupA (setA l k v) k2 = lookupA l k2 := by
  induction l with
  | nil => simp [setA, lookupA, h]
  | cons kv r ih =>
    by_cases hk : kv.1 = k
    · simp [setA, lookupA, hk, h]
    · simp [setA, lookupA, hk, ih]

theorem lookupA_eraseA_self {α : Type} (l : List (String × α)) (k : String) :
    lookupA (eraseA l k) k = none := by
  induction l with
  | nil => simp [eraseA, lookupA]
  | cons kv r ih =>
    by_cases hk : kv.1 = k
    · simp [eraseA, hk, ih]
    · simp [eraseA, lookupA, hk, ih]

theorem lookupA_eraseA_ne {α : Type} (l : List (String × α)) (k k2 : String)
    (h : k ≠ k2) : lookupA (eraseA l k) k2 = lookupA l k2 := by
  induction l with
  | nil => simp [eraseA, lookupA]
  | cons kv r ih =>
    by_cases hk : kv.1 = k
    · simp [eraseA, lookupA, hk, ih, h]
    · simp [eraseA, lookupA, hk, ih]

/-! ### Configuration (load_config, src/dotfile_watcher.py lines 17-62) -/

structure Config where
  watch_directory : String
  repo_directory : String
  commit_delay : Nat
  fetch_interval : Nat
  enable_notifications : Bool
  notify_on_commit : Bool
  notify_on_remote_changes : Bool
  auto_push : Bool
  respect_gitignore : Bool
  excluded_patterns : List String
deriving Repr, DecidableEq

/-- The `default_config` dict of `load_config` (lines 22-41). -/
def defaultConfig : Config :=
  { watch_directory := "~/.dotfiles"
    repo_directory := "~/.dotfiles"
    commit_delay := 60
    fetch_interval := 600
    enable_notifications := true
    notify_on_commit := true
    notify_on_remote_changes := true
    auto_push := true
    respect_gitignore := true
    excluded_patterns :=
      [".git/", ".git\\", "/.git/", "\\.git\\", "index.lock", "COMMIT_EDITMSG",
       "HEAD.lock", "refs/heads/", "refs/remotes/", "logs/HEAD", "logs/refs/",
       "objects/", "hooks/", "info/", "packed-refs", "config.lock", "shallow.lock",
       "modules/", ".git/index", ".git/HEAD", ".git/refs/", ".git/logs/",
       ".git/objects/", ".git/modules/", "ORIG_HEAD", "FETCH_HEAD", "MERGE_HEAD",
       "CHERRY_PICK_HEAD", ".tmp_", "__pycache__/", ".pyc", ".pyo", ".swp",
       ".swo", ".tmp", "~", ".bak"] }

/-- Modelled from the spec: the module global `COMMIT_DELAY` that
`schedule_commit` passes to `threading.Timer` (line 343) is referenced but
never defined anywhere in src/ (see the C5 analysis); the quiet-period
delay is therefore taken from the spec, whose configuration surface gives
it the default `commit_delay = 60` that `load_config` defines (line 25). -/
def COMMIT_DELAY : Nat := defaultConfig.commit_delay

/-! ### Submodule attribution (lines 139-150) -/

/-- `_get_submodule_for_file`: first submodule whose path is an ancestor. -/
def getSubmoduleForFile (subs : List PathC) (p : PathC) : Option PathC :=
  subs.find? (fun sm => sm.isPrefixOf p)

/-- `_is_in_submodule`. -/
def isInSubmodule (subs : List PathC) (p : PathC) : Bool :=
  (getSubmoduleForFile subs p).isSome

/-! ### PathClassifier and IgnoreRuleSet
(`_should_exclude_file` lines 152-204, `_load_gitignore_for_repo` lines
215-229, `_matches_gitignore` lines 231-282, the `.gitignore` handling in
the event handlers lines 658-691). -/

/-- One gitignore pattern applied to one relative path
(`_matches_gitignore` lines 253-276): negation patterns are skipped, a
trailing separator makes a directory pattern matched against the relative
path itself (when it is a directory of the current working directory) and
against every ancestor, and a plain pattern is matched against the full
relative path, the bare file name, and every ancestor. -/
def matchesOnePattern (env : Env) (rel : PathC) (name : String) (pat : String) : Bool :=
  if strStartsWith pat "!" then false
  else if strEndsWith pat "/" then
    (env.isDir (relPathStr rel) && globMatch (String.dropRight pat 1) (relPathStr rel))
      || (parentStrs rel).any (fun s => globMatch (String.dropRight pat 1) s)
  else
    globMatch pat (relPathStr rel) || globMatch pat name
      || (parentStrs rel).any (fun s => globMatch pat s)

/-- `_matches_gitignore`: attribute the path to its owning repository
(enclosing submodule, else the primary repository), look up that root's
cached patterns, relativize, and test each pattern in order; a path
outside the root or a root without a cache entry never matches. -/
def matchesGitignore (env : Env) (h : Handler) (p : PathC) : Bool :=
  match (if isInSubmodule h.submodules p
         then getSubmoduleForFile h.submodules p
         else some h.repo_dir) with
  | none => false
  | some repoDir =>
    match lookupA h.gitignore_patterns (pathStr repoDir) with
    | none => false
    | some patterns =>
      match relTo p repoDir with
      | none => false
      | some rel =>
        patterns.any (fun pat => matchesOnePattern env rel (pathName p) pat)

/-- The `git_files` set of `_should_exclude_file` (line 196). -/
def gitMetadataNames : List String :=
  ["COMMIT_EDITMSG", "ORIG_HEAD", "FETCH_HEAD", "MERGE_HEAD",
   "CHERRY_PICK_HEAD", "HEAD", "index"]

/-- `_should_exclude_file`: the sequence of early-`return True` checks is
an or-chain of pure predicates, in source order (configured substring
patterns; lock/temp/swap/backup suffixes; all-digit names; editor temp
conventions; emacs/patch leftovers; git-internal path shapes; git
metadata names anywhere; finally the gitignore match). -/
def shouldExcludeFile (env : Env) (h : Handler) (p : PathC) : Bool :=
  h.excluded_patterns.any (fun pat => strContains (pathStr p) pat)
  || [".lock", ".tmp", ".swp", ".swo", "~", ".bak"].any
       (fun suf => strEndsWith (pathName p) suf)
  || pyIsdigit (pathName p)
  || ((strStartsWith (pathName p) "." && strEndsWith (pathName p) ".swp")
      || (strStartsWith (pathName p) "." && strEndsWith (pathName p) ".swo")
      || strStartsWith (pathName p) "4913"
      || ((pathName p).length == 4 && pyIsdigit (pathName p))
      || (decide ((pathName p).length ≤ 6) && pyIsdigit (pathName p)))
  || (strStartsWith (pathName p) ".#"
      || strEndsWith (pathName p) "#"
      || strStartsWith (pathName p) "#"
      || strEndsWith (pathName p) ".orig"
      || strEndsWith (pathName p) ".rej")
  || (strContains (pathStr p) "/.git/"
      || strContains (pathStr p) "\\.git\\"
      || strEndsWith (pathStr p) "/.git"
      || strContains (pathStr p) "/.git/index"
      || p.any (fun part => strStartsWith part ".git"))
  || gitMetadataNames.contains (pathName p)
  || matchesGitignore env h p

/-- Strip, drop blanks and comments (`_load_gitignore_for_repo` loop,
lines 222-226). -/
def parseGitignoreLines (lines : List String) : List String :=
  (lines.map pyStrip).filter (fun l => !l.isEmpty && !strStartsWith l "#")

/-- `_load_gitignore_for_repo`: a fresh read replaces the cache entry for
that root wholesale; a missing or unreadable file leaves the old entry in
place (the function body is guarded by `gitignore_file.exists()` and a
`try` whose handler only logs). -/
def loadGitignoreForRepo (env : Env) (h : Handler) (repoDir : PathC) : Handler :=
  match env.fileLines (pathStr repoDir ++ "/.gitignore") with
  | none => h
  | some lines =>
    { h with
      gitignore_patterns :=
        setA h.gitignore_patterns (pathStr repoDir) (parseGitignoreLines lines) }

/-- `_load_gitignore_patterns`: primary repository first, then each
submodule in discovery order. -/
def loadGitignorePatterns (env : Env) (h : Handler) : Handler :=
  (h.repo_dir :: h.submodules).foldl (fun acc rd => loadGitignoreForRepo env acc rd) h

/-! ### CommitMessageSynthesizer
(`_create_squashed_commit_message` lines 444-516,
`_get_repo_for_location` lines 518-526,
`_create_fallback_commit_message` lines 528-559). -/

/-- `Cmd` is one issued external command: its argument list and its
working directory (the empty string for the `notify-send` calls, which
run without `cwd`). -/
abbrev Cmd := List String × String

inductive FileClass where
  | added
  | modified
  | deleted
  | unknownc
deriving Repr, DecidableEq

/-- The per-file body of the status loop (lines 462-486): relativize
(a `ValueError` falls into the per-file `except`, which classifies by
existence alone), ask `git ls-files --error-unmatch`, then the four-way
case split; the existing-but-untracked-and-absent combination appends to
no list. -/
def classifyFile (env : Env) (repoDir : PathC) (p : PathC) : FileClass :=
  match relTo p repoDir with
  | none => if env.fileExists p then FileClass.modified else FileClass.deleted
  | some rel =>
    let r := env.run ["git", "ls-files", "--error-unmatch", relPathStr rel]
      (pathStr repoDir)
    if env.fileExists p && r.returncode == 0 then FileClass.modified
    else if !env.fileExists p && r.returncode == 0 then FileClass.deleted
    else if env.fileExists p && r.returncode != 0 then FileClass.added
    else FileClass.unknownc

/-- The `git_changes` accumulator dict (line 460); `renamed` is
initialized and never appended to, exactly as in the source. -/
structure GitChanges where
  added : List String
  modified : List String
  deleted : List String
  renamed : List String
deriving Repr, DecidableEq

/-- The classification half of the status loop: fold `classifyFile` over
the distinct changed paths in iteration order. -/
def classifyAll (env : Env) (repoDir : PathC) (paths : List PathC) : GitChanges :=
  paths.foldl
    (fun g p =>
      match classifyFile env repoDir p with
      | FileClass.added => { g with added := g.added ++ [pathName p] }
      | FileClass.modified => { g with modified := g.modified ++ [pathName p] }
      | FileClass.deleted => { g with deleted := g.deleted ++ [pathName p] }
      | FileClass.unknownc => g)
    ⟨[], [], [], []⟩

/-- The command half of the same loop: one `git ls-files` invocation per
distinct path whose relativization succeeds, in order. -/
def classifyTrace (repoDir : PathC) (paths : List PathC) : List Cmd :=
  paths.filterMap (fun p =>
    match relTo p repoDir with
    | none => none
    | some rel =>
      some (["git", "ls-files", "--error-unmatch", relPathStr rel], pathStr repoDir))

/-- The message-part builder (lines 489-507): groups in the fixed order
added, modified, deleted; a singleton group renders the file name, a
larger group renders its size. -/
def buildMessageParts (g : GitChanges) : List String :=
  (if g.added.isEmpty then []
   else if g.added.length == 1 then ["add " ++ g.added.headD ""]
   else ["add " ++ toString g.added.length ++ " files"])
  ++ (if g.modified.isEmpty then []
      else if g.modified.length == 1 then ["update " ++ g.modified.headD ""]
      else ["update " ++ toString g.modified.length ++ " files"])
  ++ (if g.deleted.isEmpty then []
      else if g.deleted.length == 1 then ["remove " ++ g.deleted.headD ""]
      else ["remove " ++ toString g.deleted.length ++ " files"])

/-- `_get_repo_for_location`: only a location containing the word
`submodule` is resolved against the submodule list (by name, first
match); everything else maps to the primary repository. -/
def getRepoForLocation (h : Handler) (location : String) : PathC :=
  if strContains location "submodule" then
    match h.submodules.find?
      (fun sm => pathName sm == pyReplace location "submodule " "") with
    | some sm => sm
    | none => h.repo_dir
  else h.repo_dir

/-- The repository the message builder classifies against (line 447). -/
def messageRepoDir (h : Handler) (location : String) : PathC :=
  if location == "main repo" then h.repo_dir else getRepoForLocation h location

/-- The Python `set(...)` of changed paths, determinized to
first-occurrence order (the set iteration order is unspecified in Python;
nothing downstream depends on it: group sizes and group membership are
order-independent). -/
def dedupAux (seen : List PathC) : List PathC → List PathC
  | [] => []
  | p :: rest =>
    if seen.contains p then dedupAux seen rest
    else p :: dedupAux (p :: seen) rest

def dedupPaths (l : List PathC) : List PathC :=
  dedupAux [] l

/-- Python `sep.join(parts)`. -/
def joinSep (sep : String) : List String → String
  | [] => ""
  | [a] => a
  | a :: rest => a ++ sep ++ joinSep sep rest

/-- `_create_squashed_commit_message`, returning both the commands it
issues and the message it builds.  The outer `except` that falls back to
`_create_fallback_commit_message` is only reachable through subprocess
failures, which are outside the model. -/
def createSquashedCommitMessage (env : Env) (h : Handler) (changes : List ChangeRec)
    (location : String) : List Cmd × String :=
  let repoDir := messageRepoDir h location
  let changed := dedupPaths (changes.map (fun c => c.file_path))
  if changed.isEmpty then ([], "update files in " ++ location)
  else
    let parts := buildMessageParts (classifyAll env repoDir changed)
    (classifyTrace repoDir changed,
     if parts.isEmpty then "update files in " ++ location
     else joinSep ", " parts ++ " in " ++ location)

/-! ### The commit sequences
(`_commit_squashed_submodule` lines 384-411,
`_commit_squashed_main_repo` lines 413-442,
`_commit_submodule_update` lines 596-629, `_push_changes` lines 561-570,
`_send_commit_notification` lines 859-879).  Each is rendered as the list
of external commands it issues; branching follows the return codes the
`Env` oracle assigns. -/

/-- `_send_commit_notification`: the notify-send invocation (failures are
logged and swallowed). -/
def commitNotificationCmd (msg : String) : Cmd :=
  (["notify-send", "-i", "git", "-t", "5000", "💾 Dotfiles Committed", msg], "")

/-- `_commit_squashed_submodule`: build the message (issuing its status
queries), `git add .`, stop if it fails, `git commit`, and push only on a
zero commit status; a `nothing to commit` answer only logs.  Note the
location passed to the message builder is the bare directory name
(line 388). -/
def commitSquashedSubmodule (env : Env) (h : Handler) (subDir : PathC)
    (changes : List ChangeRec) : List Cmd :=
  let m := createSquashedCommitMessage env h changes (pathName subDir)
  let sd := pathStr subDir
  m.1 ++ [(["git", "add", "."], sd)]
    ++ (if (env.run ["git", "add", "."] sd).returncode != 0 then []
        else
          [(["git", "commit", "-m", m.2], sd)]
            ++ (if (env.run ["git", "commit", "-m", m.2] sd).returncode == 0 then
                  [(["git", "push"], sd)]
                else []))

/-- `_commit_squashed_main_repo`: as above with location `"main repo"`,
plus the desktop notification before the push on success. -/
def commitSquashedMainRepo (env : Env) (h : Handler)
    (changes : List ChangeRec) : List Cmd :=
  let m := createSquashedCommitMessage env h changes "main repo"
  let rd := pathStr h.repo_dir
  m.1 ++ [(["git", "add", "."], rd)]
    ++ (if (env.run ["git", "add", "."] rd).returncode != 0 then []
        else
          [(["git", "commit", "-m", m.2], rd)]
            ++ (if (env.run ["git", "commit", "-m", m.2] rd).returncode == 0 then
                  [commitNotificationCmd m.2, (["git", "push"], rd)]
                else []))

/-- `_commit_submodule_update`: stage the submodule reference in the
primary repository, stop if staging fails, commit it, and notify and push
the primary repository only on a zero commit status.  The `relative_to`
on line 598 sits outside the `try`; its `ValueError` would propagate to
the caller, modelled as an empty command list (never reached for a real
submodule of the repository). -/
def commitSubmoduleUpdate (env : Env) (h : Handler) (subDir : PathC) : List Cmd :=
  match relTo subDir h.repo_dir with
  | none => []
  | some rel =>
    let name := relPathStr rel
    let rd := pathStr h.repo_dir
    let msg := "Update submodule " ++ name
    [(["git", "add", name], rd)]
      ++ (if (env.run ["git", "add", name] rd).returncode != 0 then []
          else
            [(["git", "commit", "-m", msg], rd)]
              ++ (if (env.run ["git", "commit", "-m", msg] rd).returncode == 0 then
                    [commitNotificationCmd msg, (["git", "push"], rd)]
                  else []))

/-! ### DebounceScheduler
(`schedule_commit` lines 305-351, `_execute_delayed_commit` lines
353-382, `cleanup` lines 693-710).

Timers are the map from directory key to the absolute deadline of the
armed timer.  The single `timer_lock` is made visible through `Action`
traces: every run of `_execute_delayed_commit` or `schedule_commit` is
bracketed by an acquire and a release of that lock, and Python
`threading.Lock` is not reentrant, so an acquire while the lock is held
blocks the acquiring thread. -/

inductive LAct where
  | acq
  | rel
  | cmd (c : Cmd)
deriving Repr, DecidableEq

def isCmdAction : LAct → Bool
  | LAct.cmd _ => true
  | _ => false

/-- The target-directory attribution of `schedule_commit` (lines
308-317): the enclosing submodule with kind `submodule`, else the primary
repository with kind `main`; `none` mirrors the defensive
`if not target_dir: return`. -/
def targetDirOf (subs : List PathC) (repoDir : PathC) (p : PathC) :
    Option (PathC × String) :=
  if isInSubmodule subs p then
    (getSubmoduleForFile subs p).map (fun sm => (sm, "submodule"))
  else some (repoDir, "main")

/-- `schedule_commit` at time `now`: under the lock, cancel any armed
timer for the key, create the batch if absent, append the change record,
and arm a fresh timer for the full quiet period measured from `now`. -/
def scheduleCommit (now : Nat) (h : Handler) (filePath : PathC)
    (eventType : String) : Handler :=
  match targetDirOf h.submodules h.repo_dir filePath with
  | none => h
  | some td =>
    let key := pathStr td.1
    let cr : ChangeRec := ⟨filePath, eventType, pathName filePath⟩
    let info :=
      match lookupA h.pending_commits key with
      | some i => { i with changes := i.changes ++ [cr] }
      | none => (⟨td.1, td.2, [cr]⟩ : PendingCommit)
    { h with
      pending_commits := setA h.pending_commits key info
      commit_timers := setA h.commit_timers key (now + COMMIT_DELAY) }

/-- The action trace of `schedule_commit`: the attribution runs before
the lock; all bookkeeping happens inside it and issues no external
command. -/
def scheduleCommitActions (h : Handler) (p : PathC) : List LAct :=
  match targetDirOf h.submodules h.repo_dir p with
  | none => []
  | some _ => [LAct.acq, LAct.rel]

/-- `_execute_delayed_commit` fired at time `now` for `key`, run from a
thread that does not already hold the lock: the whole body, including the
external commit sequence, runs inside the lock; a missing or empty batch
returns without touching the maps (the early returns on lines 356-363
precede the `try/finally`); otherwise the commit sequence for the batch
kind runs and the `finally` removes the batch and the timer entry.
Returns the new state and the action trace. -/
def executeDelayedCommit (env : Env) (now : Nat) (h : Handler) (key : String) :
    Handler × List LAct :=
  match lookupA h.pending_commits key with
  | none => (h, [LAct.acq, LAct.rel])
  | some info =>
    if info.changes.isEmpty then (h, [LAct.acq, LAct.rel])
    else
      let cmds :=
        if info.commit_type == "submodule" then
          commitSquashedSubmodule env h info.target_dir info.changes
            ++ commitSubmoduleUpdate env h info.target_dir
        else commitSquashedMainRepo env h info.changes
      ({ h with
          pending_commits := eraseA h.pending_commits key
          commit_timers := eraseA h.commit_timers key
          executed := h.executed ++ [(now, key, info.changes)] },
       LAct.acq :: (cmds.map LAct.cmd ++ [LAct.rel]))

/-- A thread whose next pending action is a lock acquire cannot step
while the lock is held by another thread (or, for the non-reentrant
`threading.Lock`, even by its own). -/
def nextBlocked (lockHeld : Bool) : List LAct → Bool
  | LAct.acq :: _ => lockHeld
  | _ => false

/-- Fire every timer whose deadline has passed by time `now`, each at its
own deadline, in map order. -/
def fireDue (env : Env) (now : Nat) (h : Handler) : Handler :=
  (h.commit_timers.filter (fun kd => decide (kd.2 ≤ now))).foldl
    (fun acc kd => (executeDelayedCommit env kd.2 acc kd.1).1) h

/-- Process a list of `(time, path, event)` records in time order: before
each record, fire the timers it outlives; then run `schedule_commit`. -/
def runTimedEvents (env : Env) (evs : List (Nat × PathC × String))
    (h : Handler) : Handler :=
  evs.foldl (fun acc ev => scheduleCommit ev.1 (fireDue env ev.1 acc) ev.2.1 ev.2.2) h

/-- After the last record, every still-armed timer eventually fires at
its deadline. -/
def drainTimers (env : Env) (h : Handler) : Handler :=
  h.commit_timers.foldl (fun acc kd => (executeDelayedCommit env kd.2 acc kd.1).1) h

def runTimeline (env : Env) (evs : List (Nat × PathC × String))
    (h : Handler) : Handler :=
  drainTimers env (runTimedEvents env evs h)

/-- `cleanup` (lines 693-710): it takes `timer_lock` and, for every armed
timer whose key still has a pending batch, calls
`_execute_delayed_commit` — whose own `with self.timer_lock` acquires the
same non-reentrant `threading.Lock` and therefore blocks forever.  `none`
models that deadlock.  With no such key the loop only cancels timer
objects and the maps are cleared. -/
def cleanup (h : Handler) : Option Handler :=
  if h.commit_timers.any (fun kd => (lookupA h.pending_commits kd.1).isSome) then
    none
  else some { h with pending_commits := [], commit_timers := [] }

/-! ### Event handlers (lines 658-691). -/

/-- `on_modified`: directory events are dropped; a path ending in
`.gitignore` only triggers a full pattern reload; excluded paths are
dropped; everything else is recorded as `modified`. -/
def onModified (env : Env) (now : Nat) (h : Handler) (isDirectory : Bool)
    (srcPath : PathC) : Handler :=
  if isDirectory then h
  else if strEndsWith (pathStr srcPath) ".gitignore" then loadGitignorePatterns env h
  else if shouldExcludeFile env h srcPath then h
  else scheduleCommit now h srcPath "modified"

/-- `on_created`: as `on_modified`, except a created `.gitignore` is both
reloaded and still recorded as a change. -/
def onCreated (env : Env) (now : Nat) (h : Handler) (isDirectory : Bool)
    (srcPath : PathC) : Handler :=
  if isDirectory then h
  else if strEndsWith (pathStr srcPath) ".gitignore" then
    scheduleCommit now (loadGitignorePatterns env h) srcPath "created"
  else if shouldExcludeFile env h srcPath then h
  else scheduleCommit now h srcPath "created"

/-- `on_deleted`: no `.gitignore` branch at all — a deleted ignore file
is treated like any other path and triggers no reload. -/
def onDeleted (env : Env) (now : Nat) (h : Handler) (isDirectory : Bool)
    (srcPath : PathC) : Handler :=
  if isDirectory then h
  else if shouldExcludeFile env h srcPath then h
  else scheduleCommit now h srcPath "deleted"

/-! ### RemotePoller (`_fetch_and_check_changes` lines 744-805). -/

structure RemoteDivergence where
  branch : String
  commits : Int
  repo : String
deriving Repr, DecidableEq

/-- The per-branch loop of `_fetch_and_check_changes` (lines 770-799):
blank branch lines are skipped, a branch without `origin/<branch>` is
skipped, a failing `rev-list` is skipped, a positive behind-count is
recorded; an unparseable count raises `ValueError`, which the enclosing
`except` turns into an empty result for the whole repository. -/
def checkBranches (env : Env) (repoDirS repoName : String) :
    List String → Except Unit (List RemoteDivergence)
  | [] => Except.ok []
  | b :: rest =>
    if (pyStrip b).isEmpty then checkBranches env repoDirS repoName rest
    else if (env.run ["git", "rev-parse", "--verify", "origin/" ++ b]
        repoDirS).returncode != 0 then
      checkBranches env repoDirS repoName rest
    else
      let d := env.run ["git", "rev-list", "--count", b ++ ".." ++ ("origin/" ++ b)]
        repoDirS
      if d.returncode == 0 then
        match pyInt (pyStrip d.stdout) with
        | none => Except.error ()
        | some n =>
          match checkBranches env repoDirS repoName rest with
          | Except.error e => Except.error e
          | Except.ok tail =>
            Except.ok (if n > 0 then ⟨b, n, repoName⟩ :: tail else tail)
      else checkBranches env repoDirS repoName rest

/-- `_fetch_and_check_changes`: fetch all remotes (silently give up on
failure), list local branches, and scan them; any exception in the scan
yields the empty list. -/
def fetchAndCheckChanges (env : Env) (repoDirS repoName : String) :
    List RemoteDivergence :=
  if (env.run ["git", "fetch", "--all"] repoDirS).returncode != 0 then []
  else
    let br := env.run ["git", "branch", "--format=%(refname:short)"] repoDirS
    if br.returncode != 0 then []
    else
      match checkBranches env repoDirS repoName (pySplitOn (pyStrip br.stdout) "\n") with
      | Except.ok l => l
      | Except.error _ => []

/-! ### The module namespace and `main` (lines 1-65 and 968-1007).

`load_config` binds only `CONFIG` at module level; the names
`WATCH_DIRECTORY`, `REPO_DIRECTORY`, `COMMIT_DELAY` and `FETCH_INTERVAL`
used by `main` (lines 973, 981, 986, 990), `schedule_commit` (line 343)
and `start_fetch_timer` (lines 714, 717) are bound nowhere in
src/dotfile_watcher.py nor in any other file of the repository, and the
module imports no repository module that could provide them, so
evaluating them raises `NameError`. -/

inductive PyError where
  | nameError (n : String)
  | typeError (msg : String)
deriving Repr, DecidableEq

/-- The names bound at the top level of the module src/dotfile_watcher.py:
the imports (lines 2-11) and the module-level statements (lines 14-15
rebind `sys.stdout`/`sys.stderr` through `sys`, lines 17, 65, 67 and 968
bind `load_config`, `CONFIG`, `GitCommitHandler` and `main`). -/
def moduleTopLevelNames : List String :=
  ["os", "sys", "time", "subprocess", "threading", "fnmatch", "yaml",
   "Path", "Observer", "FileSystemEventHandler",
   "load_config", "CONFIG", "GitCommitHandler", "main"]

/-- Evaluating a bare name in the module namespace. -/
def pyEvalName (n : String) : Except PyError String :=
  if moduleTopLevelNames.contains n then Except.ok n
  else Except.error (PyError.nameError n)

/-- Number of positional arguments `GitCommitHandler.__init__` accepts
after `self` (line 68: `def __init__(self, config)`). -/
def handlerInitParams : Nat := 1

/-- Number of positional arguments `main` passes to `GitCommitHandler`
(line 990: `GitCommitHandler(watch_dir, REPO_DIRECTORY)`). -/
def mainHandlerCallArgs : Nat := 2

/-- `main` up to the construction of the watcher (lines 968-993):
the first configuration access is `Path(WATCH_DIRECTORY)` on line 973;
were it to succeed, line 981 reads `REPO_DIRECTORY`, and line 990 calls
the one-parameter constructor with two arguments. -/
def mainStartup : Except PyError Unit := do
  let _ ← pyEvalName "WATCH_DIRECTORY"
  let _ ← pyEvalName "REPO_DIRECTORY"
  if mainHandlerCallArgs ≠ handlerInitParams then
    Except.error (PyError.typeError
      "__init__ takes 2 positional arguments but 3 were given")
  else Except.ok ()

/-- `start_fetch_timer` (lines 712-717), called from `__init__`: its
first statement evaluates `FETCH_INTERVAL`. -/
def startFetchTimerStartup : Except PyError Unit := do
  let _ ← pyEvalName "FETCH_INTERVAL"
  Except.ok ()

/-- The timer-arming statement of `schedule_commit` (line 343) evaluates
`COMMIT_DELAY`; the surrounding `except Exception` (line 350) catches the
`NameError` after the batch was already mutated, so no timer is armed. -/
def scheduleCommitTimerArm : Except PyError Unit := do
  let _ ← pyEvalName "COMMIT_DELAY"
  Except.ok ()

/-! ### Concrete environments and handler states used by the witnesses
and counterexamples below. -/

/-- An environment in which every external command succeeds with empty
output, every path exists, nothing is a directory, and no file is
readable. -/
def envTriv : Env :=
  ⟨fun _ _ => ⟨0, "", ""⟩, fun _ => true, fun _ => false, fun _ => none⟩

/-- A handler for repository `/r` with one submodule `/r/sub`. -/
def hBase : Handler := mkHandler ["r"] [["r", "sub"]] [] []

def crA : ChangeRec := ⟨["r", "a.conf"], "modified", "a.conf"⟩
def crS : ChangeRec := ⟨["r", "sub", "f.txt"], "modified", "f.txt"⟩

/-- Two nonempty pending batches with two armed timers, as cleanup finds
them. -/
def hTwoBatches : Handler :=
  { hBase with
    pending_commits :=
      [("/r", ⟨["r"], "main", [crA]⟩), ("/r/sub", ⟨["r", "sub"], "submodule", [crS]⟩)]
    commit_timers := [("/r", 60), ("/r/sub", 70)] }

/-- An environment in which every `git commit` answers `nothing to
commit` with status 1 and everything else succeeds. -/
def envNoCommit : Env :=
  ⟨fun args _ =>
      if args.getD 1 "" == "commit" then
        ⟨1, "nothing to commit, working tree clean", ""⟩
      else ⟨0, "", ""⟩,
   fun _ => true, fun _ => false, fun _ => none⟩

/-- A batch for the submodule only. -/
def hSubBatch : Handler :=
  { hBase with
    pending_commits := [("/r/sub", ⟨["r", "sub"], "submodule", [crS]⟩)]
    commit_timers := [("/r/sub", 60)] }

example : cleanup hTwoBatches = none := by decide

example :
    ((executeDelayedCommit envTriv 60 hTwoBatches "/r").2.head? = some LAct.acq) := by
  decide

example :
    ((executeDelayedCommit envTriv 60 hTwoBatches "/r").2.getLast? = some LAct.rel) := by
  decide

example :
    4 ≤ (executeDelayedCommit envTriv 60 hTwoBatches "/r").2.countP isCmdAction := by
  decide

example :
    nextBlocked true (scheduleCommitActions hTwoBatches ["r", "sub", "x.txt"]) = true := by
  decide

example :
    LAct.cmd (["git", "add", "sub"], "/r")
      ∈ (executeDelayedCommit envNoCommit 60 hSubBatch "/r/sub").2 := by
  decide

example :
    LAct.cmd (["git", "push"], "/r/sub")
      ∉ (executeDelayedCommit envNoCommit 60 hSubBatch "/r/sub").2 := by
  decide

/-- Handler for C6/C7 scenarios: primary repository `/r`, no submodules,
the default exclusion patterns, and a cached gitignore entry for `/r`. -/
def hIgnore : Handler :=
  mkHandler ["r"] [] defaultConfig.excluded_patterns [("/r", ["build/"])]

example :
    (onDeleted envTriv 0 hIgnore false ["r", ".gitignore"]).gitignore_patterns
      = [("/r", ["build/"])] := by decide

example :
    matchesGitignore envTriv (onDeleted envTriv 0 hIgnore false ["r", ".gitignore"])
      ["r", "build", "a.txt"] = true := by decide

def hIgnoreBare : Handler := mkHandler ["r"] [] [] [("/r", ["build/"])]

example : matchesGitignore envTriv hIgnoreBare ["r", "a", "build", "f.txt"] = false := by
  decide
example : matchesGitignore envTriv hIgnoreBare ["r", "build", "f.txt"] = true := by
  decide
example : matchesGitignore envTriv hIgnoreBare ["r", "build"] = false := by
  decide

/-- Environment for the C8 witness: `new.conf` is untracked, everything
else tracked, every path exists. -/
def envStatus : Env :=
  ⟨fun args _ =>
      if args == ["git", "ls-files", "--error-unmatch", "new.conf"] then ⟨1, "", ""⟩
      else ⟨0, "", ""⟩,
   fun _ => true, fun _ => false, fun _ => none⟩

def hPlain : Handler := mkHandler ["r"] [] [] []

example :
    (createSquashedCommitMessage envStatus hPlain
        [⟨["r", "new.conf"], "created", "new.conf"⟩,
         ⟨["r", "a.conf"], "modified", "a.conf"⟩,
         ⟨["r", "b.conf"], "modified", "b.conf"⟩] "main repo").2
      = "add new.conf, update 2 files in main repo" := by decide

/-- Environment for the C9 witness: `main` is three commits behind its
remote, `dev` has no remote counterpart. -/
def envPoll : Env :=
  ⟨fun args _ =>
      if args == ["git", "fetch", "--all"] then ⟨0, "", ""⟩
      else if args == ["git", "branch", "--format=%(refname:short)"] then
        ⟨0, "main\ndev\n", ""⟩
      else if args == ["git", "rev-parse", "--verify", "origin/main"] then
        ⟨0, "deadbeef", ""⟩
      else if args == ["git", "rev-parse", "--verify", "origin/dev"] then
        ⟨128, "", "fatal: Needed a single revision"⟩
      else if args == ["git", "rev-list", "--count", "main..origin/main"] then
        ⟨0, "3\n", ""⟩
      else ⟨1, "", ""⟩,
   fun _ => true, fun _ => false, fun _ => none⟩

example :
    fetchAndCheckChanges envPoll "/r" "main repo" = [⟨"main", 3, "main repo"⟩] := by
  decide

example : shouldExcludeFile envTriv hPlain ["r", "12345"] = true := by decide
example : shouldExcludeFile envTriv hPlain ["etc", "x", "1234567890"] = true := by decide

def evsC1 : List (Nat × PathC × String) :=
  [(0, ["r", "a.conf"], "modified"), (30, ["r", "b.conf"], "created"),
   (50, ["r", "a.conf"], "modified")]

example :
    runTimeline envTriv evsC1 hBase =
      { hBase with
        executed := [(110, "/r",
          [⟨["r", "a.conf"], "modified", "a.conf"⟩,
           ⟨["r", "b.conf"], "created", "b.conf"⟩,
           ⟨["r", "a.conf"], "modified", "a.conf"⟩])] } := by decide

example : mainStartup = Except.error (PyError.nameError "WATCH_DIRECTORY") := by rfl
example : startFetchTimerStartup = Except.error (PyError.nameError "FETCH_INTERVAL") := by rfl
example : scheduleCommitTimerArm = Except.error (PyError.nameError "COMMIT_DELAY") := by rfl

/-! ### Claim theorems -/

/-- C10: for every path whose final name component consists entirely of
digits (nonempty, as `str.isdigit` demands), `_should_exclude_file`
returns true regardless of the length of the name and of the containing
directory: the unconditional all-digit check on line 168 is an earlier
disjunct than the length-qualified checks on lines 175-176, which are
therefore redundant. -/
theorem c10_all_digit_names_excluded (env : Env) (h : Handler) (p : PathC)
    (hd : pyIsdigit (pathName p) = true) :
    shouldExcludeFile env h p = true := by
  simp [shouldExcludeFile, hd]

/-- C10, witnessed: a ten-digit name in a nested directory, with empty
exclusion-pattern configuration, is excluded. -/
theorem c10_all_digit_names_excluded_witness :
    pyIsdigit (pathName (["etc", "x", "1234567890"] : PathC)) = true
      ∧ shouldExcludeFile envTriv hPlain ["etc", "x", "1234567890"] = true :=
  ⟨by decide,
   c10_all_digit_names_excluded envTriv hPlain ["etc", "x", "1234567890"] (by decide)⟩

/-- C2 (code bug): with two nonempty pending batches and their two armed
timers, `cleanup` never completes: it holds the non-reentrant
`timer_lock` while calling `_execute_delayed_commit`, whose own
`with self.timer_lock` blocks forever on the same lock (and even absent
the deadlock, the loop mutates `commit_timers` during iteration).  The
embedded `cleanup` returns `none` (blocked) instead of a drained state —
no commit sequence runs and the maps are never emptied, contradicting the
claim that both commit sequences run to completion and both maps end
empty. -/
theorem c2_cleanup_deadlocks :
    cleanup hTwoBatches = none
      ∧ hTwoBatches.pending_commits.length = 2
      ∧ hTwoBatches.pending_commits.all (fun kv => !kv.2.changes.isEmpty) = true
      ∧ hTwoBatches.commit_timers.length = 2 := by
  exact ⟨by decide, by decide, by decide, by decide⟩

/-- C5 (code bug): under the default configuration nothing is defined to
make startup work — `main` evaluates the module global `WATCH_DIRECTORY`
(line 973), which `load_config` never binds (bindings land in `CONFIG`
only), so startup raises `NameError` instead of completing; likewise
`start_fetch_timer` raises on `FETCH_INTERVAL` (line 714) so the poll
timer is never armed, the timer-arming statement of `schedule_commit`
raises on `COMMIT_DELAY` (line 343) so no quiet-period timer is armed,
and even past that, line 990 passes two positional arguments to the
one-parameter `GitCommitHandler.__init__`. -/
theorem c5_startup_raises :
    mainStartup = Except.error (PyError.nameError "WATCH_DIRECTORY")
      ∧ startFetchTimerStartup = Except.error (PyError.nameError "FETCH_INTERVAL")
      ∧ scheduleCommitTimerArm = Except.error (PyError.nameError "COMMIT_DELAY")
      ∧ moduleTopLevelNames.contains "WATCH_DIRECTORY" = false
      ∧ mainHandlerCallArgs ≠ handlerInitParams :=
  ⟨rfl, rfl, rfl, by decide, by decide⟩

/-- C4, counterexample: with a batch for submodule `/r/sub` whose commit
answers `nothing to commit` (status 1), the commit sequence does stop
short of pushing the submodule — but `_execute_delayed_commit` (lines
366-370) still calls `_commit_submodule_update` unconditionally, so the
sequence goes on to stage (`git add sub` in `/r`) and attempt the
reference commit in the primary repository, contradicting the claim that
on `nothing to commit` the sequence stops without the primary-repository
reference staging and commit. -/
theorem c4_nothing_to_commit_still_stages_main :
    strContains
        (envNoCommit.run
          ["git", "commit", "-m",
            (createSquashedCommitMessage envNoCommit hSubBatch [crS] "sub").2]
          "/r/sub").stdout "nothing to commit" = true
      ∧ LAct.cmd (["git", "push"], "/r/sub")
          ∉ (executeDelayedCommit envNoCommit 60 hSubBatch "/r/sub").2
      ∧ LAct.cmd (["git", "add", "sub"], "/r")
          ∈ (executeDelayedCommit envNoCommit 60 hSubBatch "/r/sub").2
      ∧ LAct.cmd (["git", "commit", "-m", "Update submodule sub"], "/r")
          ∈ (executeDelayedCommit envNoCommit 60 hSubBatch "/r/sub").2 := by
  exact ⟨by decide, by decide, by decide, by decide⟩

/-- C6, counterexample: deleting the ignore file is a change to it, yet
`on_deleted` (lines 686-691) has no ignore-file branch, so no reload is
triggered: the cached pattern list for `/r` survives unchanged and the
pattern `build/` — absent from the current (nonexistent) file contents —
is still applied to paths under `/r`, contradicting the claim that after
the ignore file changes no pattern absent from the current contents is
still applied. -/
theorem c6_deleted_gitignore_keeps_stale_patterns :
    envTriv.fileLines "/r/.gitignore" = none
      ∧ (onDeleted envTriv 0 hIgnore false ["r", ".gitignore"]).gitignore_patterns
          = [("/r", ["build/"])]
      ∧ matchesGitignore envTriv (onDeleted envTriv 0 hIgnore false ["r", ".gitignore"])
          ["r", "build", "a.txt"] = true :=
  ⟨rfl, by decide, by decide⟩

/-- C7, counterexample: the path `/r/a/build/f.txt` has `build` as an
ancestor directory component of its relative form `a/build/f.txt`, yet
the matcher returns false for the loaded pattern `build/`:
`_matches_gitignore` (lines 263-264) compares the pattern against the
full rendered ancestor paths (`a`, `a/build`), never against the bare
ancestor names, so only a top-level `build` directory can match. -/
theorem c7_nested_build_not_matched :
    lookupA hIgnoreBare.gitignore_patterns "/r" = some ["build/"]
      ∧ relTo ["r", "a", "build", "f.txt"] hIgnoreBare.repo_dir
          = some ["a", "build", "f.txt"]
      ∧ "build" ∈ (["a", "build", "f.txt"] : PathC).dropLast
      ∧ matchesGitignore envTriv hIgnoreBare ["r", "a", "build", "f.txt"] = false := by
  exact ⟨by decide, by decide, by decide, by decide⟩

/-- C3, counterexample: the commit sequence for one key runs entirely
inside the shared `timer_lock` — the action trace of
`_execute_delayed_commit` for the key `/r` opens with the lock acquire,
closes with the release, and keeps all of its (at least four) external
git commands strictly between the two — and while that lock is held, the
`schedule_commit` that would record a change for the other key `/r/sub`
cannot take its first step (its first action is an acquire of the same
lock).  A slow or failing commit sequence for one key therefore delays
the recording and committing of changes for every other key,
contradicting the claim that it never does. -/
theorem c3_commit_blocks_other_record :
    ((executeDelayedCommit envTriv 60 hTwoBatches "/r").2.head? = some LAct.acq)
      ∧ ((executeDelayedCommit envTriv 60 hTwoBatches "/r").2.getLast? = some LAct.rel)
      ∧ 4 ≤ (executeDelayedCommit envTriv 60 hTwoBatches "/r").2.countP isCmdAction
      ∧ nextBlocked true (scheduleCommitActions hTwoBatches ["r", "sub", "x.txt"])
          = true := by
  exact ⟨by decide, by decide, by decide, by decide⟩

/-- C9: in a poll cycle where the fetch succeeds, the local branches are
`main` and `dev`, `origin/main` resolves while `origin/dev` does not, and
`main..origin/main` counts 3 commits, `_fetch_and_check_changes` returns
exactly one divergence record — branch `main`, count 3 — and none for
`dev`. -/
theorem c9_poll_single_divergence (env : Env) (rd name : String)
    (hf : (env.run ["git", "fetch", "--all"] rd).returncode = 0)
    (hb : env.run ["git", "branch", "--format=%(refname:short)"] rd
        = ⟨0, "main\ndev\n", ""⟩)
    (hm : (env.run ["git", "rev-parse", "--verify", "origin/main"] rd).returncode = 0)
    (hd : (env.run ["git", "rev-parse", "--verify", "origin/dev"] rd).returncode ≠ 0)
    (hl : env.run ["git", "rev-list", "--count", "main..origin/main"] rd
        = ⟨0, "3\n", ""⟩) :
    fetchAndCheckChanges env rd name = [⟨"main", 3, name⟩] := by
  have e1 : ("origin/" ++ "main" : String) = "origin/main" := rfl
  have e2 : ("main" ++ ".." ++ "origin/main" : String) = "main..origin/main" := rfl
  have e3 : ("origin/" ++ "dev" : String) = "origin/dev" := rfl
  have s1 : (pyStrip "main").isEmpty = false := by decide
  have s2 : (pyStrip "dev").isEmpty = false := by decide
  have s3 : pyInt (pyStrip "3\n") = some 3 := by decide
  have hbr : pySplitOn (pyStrip "main\ndev\n") "\n" = ["main", "dev"] := by decide
  have hm2 : ((env.run ["git", "rev-parse", "--verify", "origin/main"] rd).returncode
      != 0) = false := by simp [hm]
  have hd2 : ((env.run ["git", "rev-parse", "--verify", "origin/dev"] rd).returncode
      != 0) = true := by simp [bne_iff_ne, hd]
  have hcb2 : checkBranches env rd name ["dev"] = Except.ok [] := by
    unfold checkBranches
    rw [e3, hd2]
    simp [s2, checkBranches]
  have hcb : checkBranches env rd name ["main", "dev"]
      = Except.ok [⟨"main", 3, name⟩] := by
    unfold checkBranches
    rw [e1, e2, hm2, hl]
    simp [s1, hcb2, s3]
  unfold fetchAndCheckChanges
  rw [hf, hb]
  simp [hbr, hcb]

/-- C9, witnessed at the concrete environment `envPoll`. -/
theorem c9_poll_single_divergence_witness :
    fetchAndCheckChanges envPoll "/r" "main repo" = [⟨"main", 3, "main repo"⟩] :=
  c9_poll_single_divergence envPoll "/r" "main repo" (by decide) (by decide)
    (by decide) (by decide) (by decide)

/-- C8: whenever the three changed paths are distinct and the repository
status classifies exactly one of them as added (named `n`) and the other
two as modified, the synthesized message is exactly
`add <n>, update 2 files in <location>`: the added group renders before
the modified group, the singleton group renders the file name, and the
two-element group renders `2 files`. -/
theorem c8_synthesize_add_update (env : Env) (h : Handler) (location : String)
    (ch1 ch2 ch3 : ChangeRec) (n m1 m2 : String)
    (h12 : ch1.file_path ≠ ch2.file_path) (h13 : ch1.file_path ≠ ch3.file_path)
    (h23 : ch2.file_path ≠ ch3.file_path)
    (hcls : classifyAll env (messageRepoDir h location)
        [ch1.file_path, ch2.file_path, ch3.file_path]
        = ⟨[n], [m1, m2], [], []⟩) :
    (createSquashedCommitMessage env h [ch1, ch2, ch3] location).2
      = "add " ++ n ++ ", update 2 files in " ++ location := by
  have hd : dedupPaths [ch1.file_path, ch2.file_path, ch3.file_path]
      = [ch1.file_path, ch2.file_path, ch3.file_path] := by
    simp [dedupPaths, dedupAux, h12, h13, h23, h12.symm, h13.symm, h23.symm]
  unfold createSquashedCommitMessage
  simp only [List.map_cons, List.map_nil, hd, List.isEmpty_cons, hcls]
  simp only [buildMessageParts]
  simp
  rw [show ("update " ++ toString (2 : Nat) ++ " files" : String)
      = "update 2 files" from rfl]
  simp only [joinSep]
  simp only [String.append_assoc]
  congr 1

/-- C8, witnessed: with one untracked and two tracked existing files, the
message is exactly `add new.conf, update 2 files in main repo`. -/
theorem c8_synthesize_add_update_witness :
    (createSquashedCommitMessage envStatus hPlain
        [⟨["r", "new.conf"], "created", "new.conf"⟩,
         ⟨["r", "a.conf"], "modified", "a.conf"⟩,
         ⟨["r", "b.conf"], "modified", "b.conf"⟩] "main repo").2
      = "add " ++ "new.conf" ++ ", update 2 files in " ++ "main repo" :=
  c8_synthesize_add_update envStatus hPlain "main repo"
    ⟨["r", "new.conf"], "created", "new.conf"⟩
    ⟨["r", "a.conf"], "modified", "a.conf"⟩
    ⟨["r", "b.conf"], "modified", "b.conf"⟩
    "new.conf" "a.conf" "b.conf" (by decide) (by decide) (by decide) (by decide)

/-! ### The debounce invariant (C1). -/

/-- The change record `schedule_commit` stores for a timed event. -/
def recOf (ev : Nat × PathC × String) : ChangeRec :=
  ⟨ev.2.1, ev.2.2, pathName ev.2.1⟩

/-- Time of the last event of the list (`t0` when it is empty). -/
def lastEventTime (t0 : Nat) : List (Nat × PathC × String) → Nat
  | [] => t0
  | ev :: rest => lastEventTime ev.1 rest

/-- Every event arrives no earlier than its predecessor and strictly less
than the quiet period after it. -/
def gapsOk (t0 : Nat) : List (Nat × PathC × String) → Bool
  | [] => true
  | ev :: rest =>
    (decide (t0 ≤ ev.1) && decide (ev.1 < t0 + COMMIT_DELAY)) && gapsOk ev.1 rest

/-- The accumulating state: one batch and one armed timer for the single
key, nothing yet executed. -/
def accState (h0 : Handler) (d : PathC) (ct : String) (cs : List ChangeRec)
    (dl : Nat) : Handler :=
  { h0 with
    pending_commits := [(pathStr d, ⟨d, ct, cs⟩)]
    commit_timers := [(pathStr d, dl)] }

theorem runTimedEvents_acc (env : Env) (d : PathC) (ct : String) (repoDir : PathC)
    (subs : List PathC) (excl : List String) (gi : List (String × List String)) :
    ∀ (evs : List (Nat × PathC × String)) (cs : List ChangeRec) (tp : Nat),
      (∀ ev ∈ evs, targetDirOf subs repoDir ev.2.1 = some (d, ct)) →
      gapsOk tp evs = true →
      runTimedEvents env evs
          (accState (mkHandler repoDir subs excl gi) d ct cs (tp + COMMIT_DELAY))
        = accState (mkHandler repoDir subs excl gi) d ct (cs ++ evs.map recOf)
            (lastEventTime tp evs + COMMIT_DELAY) := by
  intro evs
  induction evs with
  | nil =>
    intro cs tp _ _
    simp [runTimedEvents, lastEventTime]
  | cons ev rest ih =>
    intro cs tp hkey hgap
    simp only [gapsOk, Bool.and_eq_true, decide_eq_true_eq] at hgap
    obtain ⟨⟨hle, hlt⟩, hrest⟩ := hgap
    have hk0 : targetDirOf subs repoDir ev.2.1 = some (d, ct) :=
      hkey ev (List.mem_cons_self ev rest)
    have hfire :
        fireDue env ev.1
            (accState (mkHandler repoDir subs excl gi) d ct cs (tp + COMMIT_DELAY))
          = accState (mkHandler repoDir subs excl gi) d ct cs (tp + COMMIT_DELAY) := by
      have hnle : ¬ (tp + COMMIT_DELAY ≤ ev.1) := by omega
      simp [fireDue, accState, mkHandler, hnle]
    have hsched :
        scheduleCommit ev.1
            (accState (mkHandler repoDir subs excl gi) d ct cs (tp + COMMIT_DELAY))
            ev.2.1 ev.2.2
          = accState (mkHandler repoDir subs excl gi) d ct (cs ++ [recOf ev])
              (ev.1 + COMMIT_DELAY) := by
      have hsub : (accState (mkHandler repoDir subs excl gi) d ct cs
          (tp + COMMIT_DELAY)).submodules = subs := rfl
      have hrd : (accState (mkHandler repoDir subs excl gi) d ct cs
          (tp + COMMIT_DELAY)).repo_dir = repoDir := rfl
      simp only [scheduleCommit, hsub, hrd, hk0]
      simp [accState, mkHandler, lookupA, setA, recOf]
    rw [show runTimedEvents env (ev :: rest)
          (accState (mkHandler repoDir subs excl gi) d ct cs (tp + COMMIT_DELAY))
        = runTimedEvents env rest
            (scheduleCommit ev.1
              (fireDue env ev.1
                (accState (mkHandler repoDir subs excl gi) d ct cs (tp + COMMIT_DELAY)))
              ev.2.1 ev.2.2) from rfl]
    rw [hfire, hsched,
      ih (cs ++ [recOf ev]) ev.1 (fun e he => hkey e (List.mem_cons_of_mem ev he)) hrest]
    simp [lastEventTime]

/-- C1 (with `COMMIT_DELAY` modelled from the spec, see its definition):
for every nonempty sequence of changes all attributed to the same
target-directory key, each arriving within less than the quiet period of
its predecessor, the whole timeline — record each change, fire every
timer that comes due, drain at the end — executes exactly one commit
sequence: it fires only at `COMMIT_DELAY` after the last change, carries
all `N` change records in arrival order (duplicates included), and leaves
the batch map and the timer map empty. -/
theorem c1_debounced_single_commit (env : Env) (repoDir : PathC)
    (subs : List PathC) (excl : List String) (gi : List (String × List String))
    (ev0 : Nat × PathC × String) (rest : List (Nat × PathC × String))
    (d : PathC) (ct : String)
    (hkey : ∀ ev ∈ ev0 :: rest, targetDirOf subs repoDir ev.2.1 = some (d, ct))
    (hgap : gapsOk ev0.1 rest = true) :
    runTimeline env (ev0 :: rest) (mkHandler repoDir subs excl gi)
      = { mkHandler repoDir subs excl gi with
          executed := [(lastEventTime ev0.1 rest + COMMIT_DELAY, pathStr d,
            (ev0 :: rest).map recOf)] } := by
  have hk0 : targetDirOf subs repoDir ev0.2.1 = some (d, ct) :=
    hkey ev0 (List.mem_cons_self ev0 rest)
  have hfire0 : fireDue env ev0.1 (mkHandler repoDir subs excl gi)
      = mkHandler repoDir subs excl gi := by
    simp [fireDue, mkHandler]
  have hsched0 : scheduleCommit ev0.1 (mkHandler repoDir subs excl gi) ev0.2.1 ev0.2.2
      = accState (mkHandler repoDir subs excl gi) d ct [recOf ev0]
          (ev0.1 + COMMIT_DELAY) := by
    have hsub : (mkHandler repoDir subs excl gi).submodules = subs := rfl
    have hrd : (mkHandler repoDir subs excl gi).repo_dir = repoDir := rfl
    simp only [scheduleCommit, hsub, hrd, hk0]
    simp [accState, mkHandler, lookupA, setA, recOf]
  unfold runTimeline
  rw [show runTimedEvents env (ev0 :: rest) (mkHandler repoDir subs excl gi)
      = runTimedEvents env rest
          (scheduleCommit ev0.1 (fireDue env ev0.1 (mkHandler repoDir subs excl gi))
            ev0.2.1 ev0.2.2) from rfl]
  rw [hfire0, hsched0,
    runTimedEvents_acc env d ct repoDir subs excl gi rest [recOf ev0] ev0.1
      (fun e he => hkey e (List.mem_cons_of_mem ev0 he)) hgap]
  simp only [List.singleton_append]
  unfold drainTimers
  simp [accState, mkHandler, executeDelayedCommit, lookupA, eraseA]

/-- C1, witnessed: three changes at times 0, 30 and 50 (all gaps under the
60-second quiet period) for the primary repository produce exactly one
commit-sequence execution at time 110, carrying all three records, with
both maps empty afterwards. -/
theorem c1_debounced_single_commit_witness :
    runTimeline envTriv
        ((0, ["r", "a.conf"], "modified")
          :: [(30, ["r", "b.conf"], "created"), (50, ["r", "a.conf"], "modified")])
        (mkHandler ["r"] [["r", "sub"]] [] [])
      = { mkHandler ["r"] [["r", "sub"]] [] [] with
          executed := [(lastEventTime 0
              [(30, ["r", "b.conf"], "created"), (50, ["r", "a.conf"], "modified")]
              + COMMIT_DELAY, pathStr ["r"],
            ((0, ["r", "a.conf"], "modified")
              :: [(30, ["r", "b.conf"], "created"),
                  (50, ["r", "a.conf"], "modified")]).map recOf)] } :=
  c1_debounced_single_commit envTriv ["r"] [["r", "sub"]] [] []
    (0, ["r", "a.conf"], "modified")
    [(30, ["r", "b.conf"], "created"), (50, ["r", "a.conf"], "modified")]
    ["r"] "main" (by decide) (by decide)

/-- Every command the message builder issues is a four-argument
`git ls-files` query. -/
theorem classifyTrace_args_len (rdir : PathC) (ps : List PathC) :
    ∀ x ∈ classifyTrace rdir ps, x.1.length = 4 := by
  intro x hx
  simp only [classifyTrace, List.mem_filterMap] at hx
  obtain ⟨p, hp, hx⟩ := hx
  cases hrel : relTo p rdir with
  | none => rw [hrel] at hx; simp at hx
  | some r =>
    rw [hrel] at hx
    simp only [Option.some.injEq] at hx
    rw [← hx]
    rfl

theorem createMsg_trace_args (env : Env) (h : Handler) (changes : List ChangeRec)
    (location : String) :
    ∀ x ∈ (createSquashedCommitMessage env h changes location).1, x.1.length = 4 := by
  intro x hx
  unfold createSquashedCommitMessage at hx
  by_cases hc : (dedupPaths (changes.map (fun c => c.file_path))).isEmpty
  · simp [hc] at hx
  · simp only [hc, if_false, Bool.false_eq_true] at hx
    exact classifyTrace_args_len _ _ x hx

/-- C4, amended: in the commit sequence for a sub-repository batch, the
sub-repository push happens exactly when its `git add` and `git commit`
both succeed; on a `nothing to commit` (or any failing) commit status the
submodule push is skipped — but the staging of the sub-repository
reference in the primary repository is issued unconditionally afterwards,
and the primary-repository push happens exactly when that reference
staging and commit both succeed. -/
theorem c4_amended_submodule_sequence (env : Env) (h : Handler) (key : String)
    (now : Nat) (info : PendingCommit) (rel : PathC)
    (hlk : lookupA h.pending_commits key = some info)
    (hty : info.commit_type = "submodule")
    (hne : info.changes ≠ [])
    (hrel : relTo info.target_dir h.repo_dir = some rel)
    (hdist : pathStr info.target_dir ≠ pathStr h.repo_dir) :
    (LAct.cmd (["git", "push"], pathStr info.target_dir)
          ∈ (executeDelayedCommit env now h key).2
        ↔ ((env.run ["git", "add", "."] (pathStr info.target_dir)).returncode = 0
            ∧ (env.run ["git", "commit", "-m",
                (createSquashedCommitMessage env h info.changes
                  (pathName info.target_dir)).2]
                (pathStr info.target_dir)).returncode = 0))
      ∧ LAct.cmd (["git", "add", relPathStr rel], pathStr h.repo_dir)
          ∈ (executeDelayedCommit env now h key).2
      ∧ (LAct.cmd (["git", "push"], pathStr h.repo_dir)
          ∈ (executeDelayedCommit env now h key).2
        ↔ ((env.run ["git", "add", relPathStr rel]
              (pathStr h.repo_dir)).returncode = 0
            ∧ (env.run ["git", "commit", "-m", "Update submodule " ++ relPathStr rel]
                (pathStr h.repo_dir)).returncode = 0)) := by
  have hA0 : info.changes.isEmpty = false := by
    cases hc : info.changes with
    | nil => exact absurd hc hne
    | cons a l => rfl
  have htr : (executeDelayedCommit env now h key).2
      = LAct.acq :: (((commitSquashedSubmodule env h info.target_dir info.changes
          ++ commitSubmoduleUpdate env h info.target_dir).map LAct.cmd)
          ++ [LAct.rel]) := by
    simp [executeDelayedCommit, hlk, hA0, hty]
  have hmem : ∀ c : Cmd, (LAct.cmd c ∈ (executeDelayedCommit env now h key).2)
      ↔ c ∈ commitSquashedSubmodule env h info.target_dir info.changes
          ++ commitSubmoduleUpdate env h info.target_dir := by
    intro c
    rw [htr]
    simp [List.mem_cons, List.mem_append, List.mem_map]
  have hnotin1 : ¬ (((["git", "push"], pathStr info.target_dir) : Cmd)
      ∈ (createSquashedCommitMessage env h info.changes
          (pathName info.target_dir)).1) := by
    intro hx
    have := createMsg_trace_args env h info.changes (pathName info.target_dir) _ hx
    simp at this
  have hnotin2 : ¬ (((["git", "push"], pathStr h.repo_dir) : Cmd)
      ∈ (createSquashedCommitMessage env h info.changes
          (pathName info.target_dir)).1) := by
    intro hx
    have := createMsg_trace_args env h info.changes (pathName info.target_dir) _ hx
    simp at this
  simp only [hmem]
  unfold commitSquashedSubmodule commitSubmoduleUpdate
  rw [hrel]
  by_cases hA1 : (env.run ["git", "add", "."]
      (pathStr info.target_dir)).returncode = 0 <;>
    by_cases hC1 : (env.run ["git", "commit", "-m",
        (createSquashedCommitMessage env h info.changes
          (pathName info.target_dir)).2] (pathStr info.target_dir)).returncode = 0 <;>
    by_cases hA2 : (env.run ["git", "add", relPathStr rel]
        (pathStr h.repo_dir)).returncode = 0 <;>
    by_cases hC2 : (env.run ["git", "commit", "-m",
        "Update submodule " ++ relPathStr rel]
        (pathStr h.repo_dir)).returncode = 0 <;>
    simp_all [List.mem_append, List.mem_cons, bne_iff_ne, commitNotificationCmd,
      hdist, Ne.symm hdist]

/-- C4 amended, witnessed at the `nothing to commit` environment: the
submodule push is absent (its commit status is 1), while the reference
staging in the primary repository is present and the primary push is
absent (the reference commit also answers `nothing to commit`). -/
theorem c4_amended_submodule_sequence_witness :
    (LAct.cmd (["git", "push"], pathStr (["r", "sub"] : PathC))
          ∈ (executeDelayedCommit envNoCommit 60 hSubBatch "/r/sub").2
        ↔ ((envNoCommit.run ["git", "add", "."]
              (pathStr (["r", "sub"] : PathC))).returncode = 0
            ∧ (envNoCommit.run ["git", "commit", "-m",
                (createSquashedCommitMessage envNoCommit hSubBatch [crS]
                  (pathName (["r", "sub"] : PathC))).2]
                (pathStr (["r", "sub"] : PathC))).returncode = 0))
      ∧ LAct.cmd (["git", "add", relPathStr (["sub"] : PathC)],
            pathStr (["r"] : PathC))
          ∈ (executeDelayedCommit envNoCommit 60 hSubBatch "/r/sub").2
      ∧ (LAct.cmd (["git", "push"], pathStr (["r"] : PathC))
          ∈ (executeDelayedCommit envNoCommit 60 hSubBatch "/r/sub").2
        ↔ ((envNoCommit.run ["git", "add", relPathStr (["sub"] : PathC)]
              (pathStr (["r"] : PathC))).returncode = 0
            ∧ (envNoCommit.run ["git", "commit", "-m",
                "Update submodule " ++ relPathStr (["sub"] : PathC)]
                (pathStr (["r"] : PathC))).returncode = 0)) :=
  c4_amended_submodule_sequence envNoCommit hSubBatch "/r/sub" 60
    ⟨["r", "sub"], "submodule", [crS]⟩ ["sub"]
    (by decide) (by decide) (by decide) (by decide) (by decide)

/-- An environment in which every external command fails. -/
def envFail : Env :=
  ⟨fun _ _ => ⟨1, "", "error"⟩, fun _ => true, fun _ => false, fun _ => none⟩

/-- C3, amended: two concurrent changes for two distinct target-directory
keys each get their own independent commit sequence — executing the first
key and then the second (in any environment, including one where every
command of the first key fails) runs exactly one commit sequence per key,
each carrying only its own batch, and clears both keys from the batch
map: a failing sequence never suppresses the other key.  However, the
sequences are serialized through the single `timer_lock`: while one key's
commit sequence holds the lock (which it does for its entire duration,
see the C3 counterexample), the `schedule_commit` that would record a
change for any path cannot take its first step — a slow commit for one
key delays, without suppressing, the other key's recording and commit. -/
theorem c3_amended_per_key_sequences (env : Env) (h : Handler)
    (kA kB : String) (tA tB : Nat) (iA iB : PendingCommit)
    (p : PathC) (td : PathC × String)
    (hA : lookupA h.pending_commits kA = some iA) (hAne : iA.changes ≠ [])
    (hB : lookupA h.pending_commits kB = some iB) (hBne : iB.changes ≠ [])
    (hk : kA ≠ kB)
    (htd : targetDirOf h.submodules h.repo_dir p = some td) :
    ((executeDelayedCommit env tB
          ((executeDelayedCommit env tA h kA).1) kB).1).executed
        = h.executed ++ [(tA, kA, iA.changes), (tB, kB, iB.changes)]
      ∧ lookupA ((executeDelayedCommit env tB
            ((executeDelayedCommit env tA h kA).1) kB).1).pending_commits kA = none
      ∧ lookupA ((executeDelayedCommit env tB
            ((executeDelayedCommit env tA h kA).1) kB).1).pending_commits kB = none
      ∧ nextBlocked true (scheduleCommitActions h p) = true := by
  have hA0 : iA.changes.isEmpty = false := by
    cases hc : iA.changes with
    | nil => exact absurd hc hAne
    | cons a l => rfl
  have hB0 : iB.changes.isEmpty = false := by
    cases hc : iB.changes with
    | nil => exact absurd hc hBne
    | cons a l => rfl
  have e1 : (executeDelayedCommit env tA h kA).1
      = { h with
          pending_commits := eraseA h.pending_commits kA
          commit_timers := eraseA h.commit_timers kA
          executed := h.executed ++ [(tA, kA, iA.changes)] } := by
    simp [executeDelayedCommit, hA, hA0]
  have hlkB : lookupA (eraseA h.pending_commits kA) kB = some iB := by
    rw [lookupA_eraseA_ne _ _ _ hk]
    exact hB
  have e2 : (executeDelayedCommit env tB
        ((executeDelayedCommit env tA h kA).1) kB).1
      = { h with
          pending_commits := eraseA (eraseA h.pending_commits kA) kB
          commit_timers := eraseA (eraseA h.commit_timers kA) kB
          executed := (h.executed ++ [(tA, kA, iA.changes)])
            ++ [(tB, kB, iB.changes)] } := by
    rw [e1]
    simp [executeDelayedCommit, hlkB, hB0]
  refine ⟨?_, ?_, ?_, ?_⟩
  · rw [e2]
    simp
  · rw [e2]
    show lookupA (eraseA (eraseA h.pending_commits kA) kB) kA = none
    rw [lookupA_eraseA_ne _ _ _ (Ne.symm hk), lookupA_eraseA_self]
  · rw [e2]
    show lookupA (eraseA (eraseA h.pending_commits kA) kB) kB = none
    rw [lookupA_eraseA_self]
  · simp [scheduleCommitActions, htd, nextBlocked]

/-- C3 amended, witnessed: with every command failing for both keys, both
batches still execute their own commit sequence, both keys are cleared,
and a record for a third path is blocked while the lock is held. -/
theorem c3_amended_per_key_sequences_witness :
    ((executeDelayedCommit envFail 70
          ((executeDelayedCommit envFail 60 hTwoBatches "/r").1) "/r/sub").1).executed
        = hTwoBatches.executed ++ [(60, "/r", [crA]), (70, "/r/sub", [crS])]
      ∧ lookupA ((executeDelayedCommit envFail 70
            ((executeDelayedCommit envFail 60 hTwoBatches "/r").1)
            "/r/sub").1).pending_commits "/r" = none
      ∧ lookupA ((executeDelayedCommit envFail 70
            ((executeDelayedCommit envFail 60 hTwoBatches "/r").1)
            "/r/sub").1).pending_commits "/r/sub" = none
      ∧ nextBlocked true (scheduleCommitActions hTwoBatches ["r", "sub", "x.txt"])
          = true :=
  c3_amended_per_key_sequences envFail hTwoBatches "/r" "/r/sub" 60 70
    ⟨["r"], "main", [crA]⟩ ⟨["r", "sub"], "submodule", [crS]⟩
    ["r", "sub", "x.txt"] (["r", "sub"], "submodule")
    (by decide) (by decide) (by decide) (by decide) (by decide) (by decide)

/-- `schedule_commit` never touches the gitignore cache. -/
theorem scheduleCommit_gitignore (now : Nat) (h : Handler) (p : PathC) (e : String) :
    (scheduleCommit now h p e).gitignore_patterns = h.gitignore_patterns := by
  unfold scheduleCommit
  cases targetDirOf h.submodules h.repo_dir p with
  | none => rfl
  | some td => rfl

/-- Once the cache entry for key `k` holds the fresh parse of the file at
`k ++ "/.gitignore"`, folding the per-root gitignore loader over any
further roots keeps it there: a root with a different key touches other
entries only, and a root with the same key rereads the same file and
rewrites the same parse. -/
theorem lookupA_foldl_load_preserved (env : Env) (k : String) (lines : List String)
    (hread : env.fileLines (k ++ "/.gitignore") = some lines) :
    ∀ (roots : List PathC) (acc : Handler),
      lookupA acc.gitignore_patterns k = some (parseGitignoreLines lines) →
      lookupA ((roots.foldl (fun a r => loadGitignoreForRepo env a r)
          acc)).gitignore_patterns k = some (parseGitignoreLines lines) := by
  intro roots
  induction roots with
  | nil => intro acc hacc; exact hacc
  | cons r0 rest ih =>
    intro acc hacc
    rw [List.foldl_cons]
    refine ih _ ?_
    by_cases hk : pathStr r0 = k
    · rw [← hk] at hread
      simp only [loadGitignoreForRepo, hread]
      rw [hk]
      exact lookupA_setA_self _ _ _
    · cases hfl : env.fileLines (pathStr r0 ++ "/.gitignore") with
      | none =>
        simp only [loadGitignoreForRepo, hfl]
        exact hacc
      | some ls =>
        simp only [loadGitignoreForRepo, hfl]
        rw [lookupA_setA_ne _ _ _ _ hk]
        exact hacc

/-- Processing a list of roots that contains `rd`, whose ignore file is
readable, ends with the cache entry of `rd` holding the fresh parse,
whatever was cached before. -/
theorem lookupA_foldl_load_mem (env : Env) (lines : List String) :
    ∀ (roots : List PathC) (acc : Handler) (rd : PathC),
      rd ∈ roots →
      env.fileLines (pathStr rd ++ "/.gitignore") = some lines →
      lookupA ((roots.foldl (fun a r => loadGitignoreForRepo env a r)
          acc)).gitignore_patterns (pathStr rd)
        = some (parseGitignoreLines lines) := by
  intro roots
  induction roots with
  | nil => intro acc rd hmem _; exact absurd hmem (List.not_mem_nil rd)
  | cons r0 rest ih =>
    intro acc rd hmem hread
    rw [List.foldl_cons]
    rcases List.mem_cons.mp hmem with heq | hmem2
    · subst heq
      refine lookupA_foldl_load_preserved env (pathStr rd) lines hread rest _ ?_
      simp only [loadGitignoreForRepo, hread]
      exact lookupA_setA_self _ _ _
    · exact ih _ rd hmem2 hread

/-- C6, amended: when the reload is triggered — which happens on
modification and on creation of any path ending in `.gitignore`, but not
on deletion — every root, the primary repository and every submodule
alike, whose ignore file currently exists and is readable gets its
cached pattern list replaced wholesale by the fresh parse of the file,
independent of what was cached before; a deleted ignore file triggers no
reload at all (see the C6 counterexample), and a reload that finds a
root's file absent leaves that root's old cache in place. -/
theorem c6_amended_reload_replaces_wholesale (env : Env) (now : Nat) (h : Handler)
    (srcPath : PathC) (rd : PathC) (lines : List String)
    (hgi : strEndsWith (pathStr srcPath) ".gitignore" = true)
    (hroot : rd = h.repo_dir ∨ rd ∈ h.submodules)
    (hread : env.fileLines (pathStr rd ++ "/.gitignore") = some lines) :
    lookupA (onModified env now h false srcPath).gitignore_patterns (pathStr rd)
        = some (parseGitignoreLines lines)
      ∧ lookupA (onCreated env now h false srcPath).gitignore_patterns (pathStr rd)
        = some (parseGitignoreLines lines) := by
  have hmem : rd ∈ h.repo_dir :: h.submodules := List.mem_cons.mpr hroot
  have hload : lookupA (loadGitignorePatterns env h).gitignore_patterns (pathStr rd)
      = some (parseGitignoreLines lines) := by
    unfold loadGitignorePatterns
    exact lookupA_foldl_load_mem env lines (h.repo_dir :: h.submodules) h rd hmem hread
  constructor
  · have h1 : onModified env now h false srcPath = loadGitignorePatterns env h := by
      simp [onModified, hgi]
    rw [h1]
    exact hload
  · have h2 : onCreated env now h false srcPath
        = scheduleCommit now (loadGitignorePatterns env h) srcPath "created" := by
      simp [onCreated, hgi]
    rw [h2, scheduleCommit_gitignore]
    exact hload

/-- Handler for the C6 amended witness: submodule `/r/sub` with a stale
cached entry. -/
def hIgnoreSub : Handler :=
  mkHandler ["r"] [["r", "sub"]] [] [("/r/sub", ["old/"])]

/-- An environment whose only readable file is `/r/sub/.gitignore`. -/
def envRead : Env :=
  ⟨fun _ _ => ⟨0, "", ""⟩, fun _ => true, fun _ => false,
   fun s => if s == "/r/sub/.gitignore" then some ["x.log", "# note", "", "build/"]
     else none⟩

/-- C6 amended, witnessed at a submodule root: both modifying and
creating `/r/sub/.gitignore` replace the cached entry of `/r/sub`
(previously `["old/"]`) with the fresh parse of the new contents. -/
theorem c6_amended_reload_replaces_wholesale_witness :
    lookupA (onModified envRead 0 hIgnoreSub false
          ["r", "sub", ".gitignore"]).gitignore_patterns
        (pathStr (["r", "sub"] : PathC))
        = some (parseGitignoreLines ["x.log", "# note", "", "build/"])
      ∧ lookupA (onCreated envRead 0 hIgnoreSub false
          ["r", "sub", ".gitignore"]).gitignore_patterns
        (pathStr (["r", "sub"] : PathC))
        = some (parseGitignoreLines ["x.log", "# note", "", "build/"]) :=
  c6_amended_reload_replaces_wholesale envRead 0 hIgnoreSub
    ["r", "sub", ".gitignore"] ["r", "sub"] ["x.log", "# note", "", "build/"]
    (by decide) (by decide) (by decide)

theorem relTo_append (a b : PathC) : relTo (a ++ b) a = some b := by
  unfold relTo
  have hp : a.isPrefixOf (a ++ b) = true := by
    induction a with
    | nil => simp [List.isPrefixOf]
    | cons x t ih => simp [List.isPrefixOf, ih]
  simp [hp, List.drop_left]

/-- C7, amended: for the loaded ignore pattern `build/` on a repository
with no sub-repositories, the matcher returns true exactly for paths
lying strictly below a top-level directory named `build` (the pattern is
compared against full rendered ancestor paths, so deeper nested `build`
directories do not match — see the C7 counterexample), and it returns
false for a path literally named `build` at the repository root whenever
`build` is not a directory of the working directory the watcher happens
to run in (the `rel_path.is_dir()` test of line 260 consults the
filesystem relative to that working directory). -/
theorem c7_amended_top_level_build (env : Env) (h : Handler) (rest : PathC)
    (hsub : h.submodules = [])
    (hpat : lookupA h.gitignore_patterns (pathStr h.repo_dir) = some ["build/"])
    (hrest : rest ≠ [])
    (hdir : env.isDir "build" = false) :
    matchesGitignore env h (h.repo_dir ++ "build" :: rest) = true
      ∧ matchesGitignore env h (h.repo_dir ++ ["build"]) = false := by
  have hsc : ∀ q : PathC,
      (if isInSubmodule h.submodules q then getSubmoduleForFile h.submodules q
       else some h.repo_dir) = some h.repo_dir := by
    intro q
    rw [hsub]
    rfl
  constructor
  · unfold matchesGitignore
    rw [hsc]
    simp only [hpat, relTo_append]
    simp only [List.any_cons, List.any_nil, Bool.or_false]
    unfold matchesOnePattern
    have hmem1 : ("build" : String) ∈ parentStrs ("build" :: rest) := by
      unfold parentStrs
      refine List.mem_map.mpr ⟨1, List.mem_range.mpr ?_, rfl⟩
      have := List.length_pos.mpr hrest
      simp only [List.length_cons]
      omega
    have hb : (parentStrs ("build" :: rest)).any
        (fun s => globMatch (String.dropRight "build/" 1) s) = true :=
      List.any_eq_true.mpr ⟨"build", hmem1, by decide⟩
    simp [show strStartsWith "build/" "!" = false from rfl,
      show strEndsWith "build/" "/" = true from rfl, hb]
  · unfold matchesGitignore
    rw [hsc]
    simp only [hpat, relTo_append]
    simp only [List.any_cons, List.any_nil, Bool.or_false]
    unfold matchesOnePattern
    simp [show strStartsWith "build/" "!" = false from rfl,
      show strEndsWith "build/" "/" = true from rfl,
      show relPathStr ["build"] = "build" from rfl, hdir,
      show (parentStrs ["build"]).any
        (fun s => globMatch (String.dropRight "build/" 1) s) = false from by decide]

/-- C7 amended, witnessed: `/r/build/f.txt` is matched by `build/`, while
a file literally named `build` at the root is not. -/
theorem c7_amended_top_level_build_witness :
    matchesGitignore envTriv hIgnoreBare
        ((["r"] : PathC) ++ "build" :: ["f.txt"]) = true
      ∧ matchesGitignore envTriv hIgnoreBare ((["r"] : PathC) ++ ["build"]) = false :=
  c7_amended_top_level_build envTriv hIgnoreBare ["f.txt"]
    (by decide) (by decide) (by decide) (by decide)
